import Mathlib

/-!
Verification development for the Alpaca broker adapter
(`src/lib.rs`, `src/alpaca.rs`, `src/http.rs`).

The Rust code is shallowly embedded: floating-point amounts are modelled
as rationals (`ℚ`), `HashMap` order caches as association lists with
shadowing insertion (which has the same lookup semantics as
`HashMap::insert`), timestamps as abstract `Nat` values, and every HTTP
exchange as an explicit `Except String _` parameter standing for the
outcome of the transport call that the code performs at that point.
-/

/-- Model of `serde_json::Value`: the dynamically typed JSON values that
the `initialize` entry point receives as its configuration object. -/
inductive Json where
  | null
  | bool (b : Bool)
  | num (q : ℚ)
  | str (s : String)
  | arr (elems : List Json)
  | obj (fields : List (String × Json))

/-- First-match field lookup in a JSON object (serde maps have unique keys). -/
def findField : List (String × Json) → String → Option Json
  | [], _ => none
  | (k2, v) :: rest, k => if k2 = k then some v else findField rest k

/-- Model of `serde_json::Value::get(key)`: field lookup, `none` on non-objects. -/
def Json.getKey : Json → String → Option Json
  | .obj fields, k => findField fields k
  | _, _ => none

/-- Model of `Value::as_str` (restricted to returning the owned string). -/
def Json.asStr : Json → Option String
  | .str s => some s
  | _ => none

/-- Model of `Value::as_bool`. -/
def Json.asBool : Json → Option Bool
  | .bool b => some b
  | _ => none

/-! ### Decimal-string parsing, modelling `str::parse::<f64>()`

The adapter receives every numeric amount from the brokerage as a decimal
string and calls `parse::<f64>().unwrap_or(0.0)` on it.  We model the
numeric domain as `ℚ` and the parser as a total function on the decimal
grammar `[sign] digits [. digits] [e|E [sign] digits]` (requiring at least
one digit and full consumption, as Rust's `from_str` does); non-numeric
strings parse to `none`. -/

/-- Numeric value of a digit list, most significant first. -/
def digitsVal (cs : List Char) : Nat :=
  cs.foldl (fun acc c => 10 * acc + (c.toNat - 48)) 0

/-- Consume an optional leading sign; returns (isNegative, rest). -/
def parseSign : List Char → Bool × List Char
  | '-' :: rest => (true, rest)
  | '+' :: rest => (false, rest)
  | cs => (false, cs)

/-- Consume an optional `.`-introduced fraction part. -/
def parseFrac : List Char → List Char × List Char
  | '.' :: rest => (rest.takeWhile Char.isDigit, rest.dropWhile Char.isDigit)
  | cs => ([], cs)

/-- Consume an optional exponent part; `none` if an `e`/`E` is present but
malformed (which fails the whole parse). -/
def parseExpPart : List Char → Option (Int × List Char)
  | [] => some (0, [])
  | c :: rest =>
    if c = 'e' ∨ c = 'E' then
      let (eneg, rest2) := parseSign rest
      let ds := rest2.takeWhile Char.isDigit
      let rest3 := rest2.dropWhile Char.isDigit
      if ds = [] then none
      else some ((if eneg then -(digitsVal ds : Int) else (digitsVal ds : Int)), rest3)
    else some (0, c :: rest)

/-- Parse a decimal literal from a character list into a rational: the
value is `±(ipart.fpart) × 10^e`, assembled with `mkRat` so that the
parser evaluates inside the kernel. -/
def parseFChars (cs : List Char) : Option ℚ :=
  let (neg, cs1) := parseSign cs
  let ip := cs1.takeWhile Char.isDigit
  let r1 := cs1.dropWhile Char.isDigit
  let (fp, r2) := parseFrac r1
  if ip = [] ∧ fp = [] then none
  else
    match parseExpPart r2 with
    | none => none
    | some (e, r3) =>
      if r3 = [] then
        let mantissa : Nat := digitsVal ip * 10 ^ fp.length + digitsVal fp
        let num : Int := if neg then -(mantissa : Int) else (mantissa : Int)
        some (if 0 ≤ e then mkRat (num * (10 : Int) ^ e.toNat) (10 ^ fp.length)
              else mkRat num (10 ^ fp.length * 10 ^ (-e).toNat))
      else none

/-- Model of `s.parse::<f64>()` on the rational domain. -/
def parseF (s : String) : Option ℚ :=
  parseFChars s.data

/-- Model of `parse_amount` in `get_account`: parse, defaulting to `0.0`. -/
def parse_amount (s : String) : ℚ :=
  (parseF s).getD 0

/-! ### Decimal rendering, modelling `f64::to_string()` / `Display`

Used by `submit_order` to put quantities and prices on the wire as decimal
strings.  For rationals with terminating decimal expansion (the image of
the floats the adapter handles) this renders the exact expansion, integer
values without a fraction part, matching Rust's `Display` on such values. -/

/-- The ASCII digit character for `n < 10`. -/
def natDigitChar (n : Nat) : Char :=
  Char.ofNat (48 + n)

/-- Decimal digits of `n`, most significant first (fuel-based recursion). -/
def natDigitsAux : Nat → Nat → List Char
  | 0, _ => []
  | fuel + 1, n => if n = 0 then [] else natDigitsAux fuel (n / 10) ++ [natDigitChar (n % 10)]

/-- Render a natural number in decimal. -/
def natToDecimal (n : Nat) : String :=
  if n = 0 then "0" else String.mk (natDigitsAux (n + 1) n)

/-- Fraction digits of `n/d` for `0 ≤ n < d`, stopping at a terminating
expansion (fuel bounds the digit count; 1200 covers every `f64`). -/
def fracDigitsAux : Nat → Nat → Nat → List Char
  | 0, _, _ => []
  | fuel + 1, n, d => if n = 0 then [] else natDigitChar (10 * n / d) :: fracDigitsAux fuel (10 * n % d) d

/-- Model of `f64::to_string` on the rational domain. -/
def ratToString (q : ℚ) : String :=
  let sign := if q < 0 then "-" else ""
  let n := q.num.natAbs
  let d := q.den
  let rem := n % d
  if rem = 0 then sign ++ natToDecimal (n / d)
  else sign ++ natToDecimal (n / d) ++ "." ++ String.mk (fracDigitsAux 1200 rem d)

example : parseF "10" = some 10 := by decide
example : parseF "abc" = none := by decide
example : parseF "0.15" = some (mkRat 3 20) := by decide
example : parseF "-101.5" = some (mkRat (-203) 2) := by decide
example : ratToString (mkRat 203 2) = "101.5" := by decide
example : ratToString (10 : ℚ) = "10" := by decide

/-! ### The host data model (`models` crate types as used by this adapter)

Field sets are taken from the construction sites in `src/alpaca.rs` and
`src/lib.rs`.  Amounts are rationals, timestamps abstract `Nat` instants,
extension maps association lists of JSON values. -/

/-- `models::order::OrderSide`. -/
inductive OrderSide where
  | Buy
  | Sell
deriving DecidableEq

/-- `models::order::OrderType`. -/
inductive OrderType where
  | Market
  | Limit
  | Stop
  | StopLimit
deriving DecidableEq

/-- `models::order::OrderStatus` (the variants this adapter produces). -/
inductive OrderStatus where
  | Submitted
  | PartiallyFilled
  | Filled
  | Canceled
  | Rejected
deriving DecidableEq

/-- `models::order::OrderRequest`. -/
structure OrderRequest where
  symbol_id : String
  quantity : ℚ
  side : OrderSide
  order_type : OrderType
  limit_price : Option ℚ
  stop_price : Option ℚ
  reference_price : Option ℚ
  time_in_force : Option String
  extensions : Option (List (String × Json))
  persona_id : String

/-- `models::order::Order`. -/
structure Order where
  id : String
  request : OrderRequest
  status : OrderStatus
  created_at : Nat
  updated_at : Nat
  average_filled_price : Option ℚ
  filled_quantity : ℚ
  extensions : Option (List (String × Json))
  persona_id : String

/-- `models::portfolio::Position`. -/
structure Position where
  symbol_id : String
  quantity : ℚ
  average_price : ℚ
  current_price : ℚ
  unrealized_pnl : ℚ
  unrealized_pnl_percent : ℚ

/-- `models::portfolio::AccountBalance`. -/
structure AccountBalance where
  currency : String
  total_equity : ℚ
  available_cash : ℚ
  buying_power : ℚ
  locked_cash : ℚ

/-- `models::portfolio::AccountSummary`. -/
structure AccountSummary where
  id : String
  name : String
  broker_id : String
  is_paper : Bool
  balance : AccountBalance
  positions : List Position
  updated_at : Nat
  extensions : Option (List (String × Json))

/-! ### The brokerage client (`src/alpaca.rs`) -/

/-- `LIVE_API_URL` in `src/alpaca.rs`. -/
def LIVE_API_URL : String := "https://api.alpaca.markets"

/-- `PAPER_API_URL` in `src/alpaca.rs`. -/
def PAPER_API_URL : String := "https://paper-api.alpaca.markets"

/-- `AlpacaClient` in `src/alpaca.rs`. -/
structure AlpacaClient where
  api_key : String
  api_secret : String
  base_url : String
  is_paper : Bool

/-- `AlpacaClient::new`: selects the base endpoint from the paper flag. -/
def AlpacaClient.new (api_key api_secret : String) (is_paper : Bool) : AlpacaClient :=
  { api_key := api_key
    api_secret := api_secret
    base_url := if is_paper then PAPER_API_URL else LIVE_API_URL
    is_paper := is_paper }

/-- The `AlpacaAccount` wire shape deserialized by `get_account`. -/
structure AlpacaAccount where
  id : String
  account_number : String
  status : String
  currency : String
  cash : String
  portfolio_value : String
  buying_power : String
  equity : String
  last_equity : String
  daytrade_count : Option Int
  pattern_day_trader : Option Bool

/-- The `AlpacaPosition` wire shape deserialized by `get_positions`. -/
structure AlpacaPosition where
  symbol : String
  qty : String
  avg_entry_price : String
  current_price : String
  market_value : String
  unrealized_pl : String
  unrealized_plpc : String
  side : String

/-- The per-entry mapping in `AlpacaClient::get_positions`: signed
quantity from the `side` field, percent from the fraction times 100. -/
def mapPosition (p : AlpacaPosition) : Position :=
  let qty : ℚ := (parseF p.qty).getD 0
  let multiplier : ℚ := if p.side = "short" then -1 else 1
  { symbol_id := p.symbol
    quantity := qty * multiplier
    average_price := (parseF p.avg_entry_price).getD 0
    current_price := (parseF p.current_price).getD 0
    unrealized_pnl := (parseF p.unrealized_pl).getD 0
    unrealized_pnl_percent := (parseF p.unrealized_plpc).getD 0 * 100 }

/-- `AlpacaClient::get_positions`; `fetch` is the outcome of the
`GET /v2/positions` exchange (status check plus body decode). -/
def AlpacaClient.get_positions (_c : AlpacaClient)
    (fetch : Except String (List AlpacaPosition)) : Except String (List Position) :=
  match fetch with
  | .error e => .error e
  | .ok positions => .ok (positions.map mapPosition)

/-- `AlpacaClient::get_account`; `fetchAcct` is the outcome of the
`GET /v2/account` exchange and `fetchPos` of the nested positions call
(whose failure is tolerated via `unwrap_or_default`). -/
def AlpacaClient.get_account (c : AlpacaClient)
    (fetchAcct : Except String AlpacaAccount)
    (fetchPos : Except String (List AlpacaPosition)) (now : Nat) :
    Except String AccountSummary :=
  match fetchAcct with
  | .error e => .error e
  | .ok account =>
    let positions :=
      match c.get_positions fetchPos with
      | .ok ps => ps
      | .error _ => []
    .ok {
      id := account.account_number
      name := "Alpaca " ++ (if c.is_paper then "Paper" else "Live")
      broker_id := "broker-alpaca"
      is_paper := c.is_paper
      balance := {
        currency := account.currency
        total_equity := parse_amount account.equity
        available_cash := parse_amount account.cash
        buying_power := parse_amount account.buying_power
        locked_cash := 0 }
      positions := positions
      updated_at := now
      extensions := some (
        [("account_id", Json.str account.id), ("status", Json.str account.status)]
        ++ (match account.pattern_day_trader with
            | some pdt => [("pattern_day_trader", Json.bool pdt)]
            | none => [])
        ++ (match account.daytrade_count with
            | some cnt => [("daytrade_count", Json.num (cnt : ℚ))]
            | none => [])) }

/-- `AlpacaClient::list_accounts`: wraps `get_account` in a one-element list. -/
def AlpacaClient.list_accounts (c : AlpacaClient)
    (fetchAcct : Except String AlpacaAccount)
    (fetchPos : Except String (List AlpacaPosition)) (now : Nat) :
    Except String (List AccountSummary) :=
  match c.get_account fetchAcct fetchPos now with
  | .error e => .error e
  | .ok account => .ok [account]

/-! ### Order submission (`AlpacaClient::submit_order`) -/

/-- The `CreateOrderRequest` wire shape POSTed to `/v2/orders`
(`order_type` is serialized under the key `"type"`). -/
structure CreateOrderRequest where
  symbol : String
  qty : String
  side : String
  order_type : String
  time_in_force : String
  limit_price : Option String
  stop_price : Option String
  client_order_id : Option String

/-- Lowercase hex digit character for `n < 16`. -/
def hexDigitChar (n : Nat) : Char :=
  if n < 10 then Char.ofNat (48 + n) else Char.ofNat (97 + (n - 10))

/-- Model of `format!("{:016x}", n)` for a `u64` value: sixteen lowercase
hex digits, most significant first (digit extraction is modulo `2^64`). -/
def toHex16 (n : Nat) : String :=
  String.mk (((List.range 16).reverse).map (fun i => hexDigitChar (n / 16 ^ i % 16)))

/-- The side token map inside `submit_order`. -/
def sideToken : OrderSide → String
  | .Buy => "buy"
  | .Sell => "sell"

/-- The order-type token map inside `submit_order`. -/
def orderTypeToken : OrderType → String
  | .Market => "market"
  | .Limit => "limit"
  | .Stop => "stop"
  | .StopLimit => "stop_limit"

/-- The request body built by `submit_order`; `rnd` models the
`rand::random::<u64>()` draw used for the idempotency token. -/
def submitOrderBody (order : OrderRequest) (rnd : Nat) : CreateOrderRequest :=
  let side := sideToken order.side
  let order_type := orderTypeToken order.order_type
  let client_order_id := "KL" ++ toHex16 rnd
  { symbol := order.symbol_id
    qty := ratToString order.quantity
    side := side
    order_type := order_type
    time_in_force := "day"
    limit_price := order.limit_price.map ratToString
    stop_price := order.stop_price.map ratToString
    client_order_id := some client_order_id }

/-- Serde serialization of `CreateOrderRequest` as key/value pairs in
declaration order, skipping `None` fields (`skip_serializing_if`). -/
def encodeCreateOrder (r : CreateOrderRequest) : List (String × String) :=
  [("symbol", r.symbol), ("qty", r.qty), ("side", r.side),
   ("type", r.order_type), ("time_in_force", r.time_in_force)]
  ++ (match r.limit_price with | some p => [("limit_price", p)] | none => [])
  ++ (match r.stop_price with | some p => [("stop_price", p)] | none => [])
  ++ (match r.client_order_id with | some cid => [("client_order_id", cid)] | none => [])

/-- The `OrderResponse` wire shape decoded by `submit_order`. -/
structure OrderResponse where
  id : String
  client_order_id : String
  status : String
  symbol : String
  qty : String
  filled_qty : String
  filled_avg_price : Option String
  created_at : String
  updated_at : String

/-- The brokerage-status decode inside `submit_order`. -/
def submitOrderStatus (s : String) : OrderStatus :=
  if s = "new" ∨ s = "accepted" ∨ s = "pending_new" then .Submitted
  else if s = "partially_filled" then .PartiallyFilled
  else if s = "filled" then .Filled
  else if s = "canceled" ∨ s = "expired" ∨ s = "rejected" then .Canceled
  else .Submitted

/-- Assembly of the outward `Order` from a decoded `OrderResponse` in
`submit_order`; `parseTime` models `DateTime::parse_from_rfc3339` and
`now` the `Utc::now()` fallback. -/
def mapSubmitResponse (order : OrderRequest) (resp : OrderResponse)
    (parseTime : String → Option Nat) (now : Nat) : Order :=
  { id := resp.id
    request := order
    status := submitOrderStatus resp.status
    created_at := (parseTime resp.created_at).getD now
    updated_at := (parseTime resp.updated_at).getD now
    filled_quantity := (parseF resp.filled_qty).getD 0
    average_filled_price := resp.filled_avg_price.bind (fun p => parseF p)
    extensions := some [("client_order_id", Json.str resp.client_order_id),
                        ("alpaca_status", Json.str resp.status)]
    persona_id := order.persona_id }

/-- `AlpacaClient::submit_order`; `post` is the outcome of the
`POST /v2/orders` exchange as a function of the body actually sent. -/
def AlpacaClient.submit_order (_c : AlpacaClient) (order : OrderRequest) (rnd : Nat)
    (post : CreateOrderRequest → Except String OrderResponse)
    (parseTime : String → Option Nat) (now : Nat) : Except String Order :=
  let req := submitOrderBody order rnd
  match post req with
  | .error e => .error e
  | .ok resp => .ok (mapSubmitResponse order resp parseTime now)

/-- `AlpacaClient::cancel_order`; `del` is the `DELETE /v2/orders/{id}` outcome. -/
def AlpacaClient.cancel_order (_c : AlpacaClient) (del : Except String Unit) :
    Except String Unit :=
  del

/-! ### Order retrieval (`AlpacaClient::get_order`) -/

/-- The `OrderResponse` wire shape decoded by `get_order` (richer than the
one in `submit_order`: it reconstructs the request). -/
structure GetOrderResponse where
  id : String
  client_order_id : String
  status : String
  symbol : String
  qty : String
  side : String
  order_type : String
  filled_qty : String
  filled_avg_price : Option String
  limit_price : Option String
  stop_price : Option String
  created_at : String
  updated_at : String

/-- The brokerage-status decode inside `get_order` (textually the same
match as in `submit_order`). -/
def getOrderStatus (s : String) : OrderStatus :=
  if s = "new" ∨ s = "accepted" ∨ s = "pending_new" then .Submitted
  else if s = "partially_filled" then .PartiallyFilled
  else if s = "filled" then .Filled
  else if s = "canceled" ∨ s = "expired" ∨ s = "rejected" then .Canceled
  else .Submitted

/-- Assembly of the outward `Order` from a decoded response in `get_order`
(the request is reconstructed; persona id is not recoverable). -/
def mapGetOrderResponse (resp : GetOrderResponse)
    (parseTime : String → Option Nat) (now : Nat) : Order :=
  let side := match resp.side with
    | "buy" => OrderSide.Buy
    | _ => OrderSide.Sell
  let order_type := match resp.order_type with
    | "market" => OrderType.Market
    | "limit" => OrderType.Limit
    | "stop" => OrderType.Stop
    | "stop_limit" => OrderType.StopLimit
    | _ => OrderType.Market
  { id := resp.id
    request := {
      symbol_id := resp.symbol
      quantity := (parseF resp.qty).getD 0
      side := side
      order_type := order_type
      limit_price := resp.limit_price.bind (fun p => parseF p)
      stop_price := resp.stop_price.bind (fun p => parseF p)
      reference_price := none
      time_in_force := none
      extensions := none
      persona_id := "" }
    status := getOrderStatus resp.status
    created_at := (parseTime resp.created_at).getD now
    updated_at := (parseTime resp.updated_at).getD now
    filled_quantity := (parseF resp.filled_qty).getD 0
    average_filled_price := resp.filled_avg_price.bind (fun p => parseF p)
    extensions := some [("client_order_id", Json.str resp.client_order_id),
                        ("alpaca_status", Json.str resp.status)]
    persona_id := "" }

/-- `AlpacaClient::get_order`; `fetch` is the `GET /v2/orders/{id}` outcome. -/
def AlpacaClient.get_order (_c : AlpacaClient)
    (fetch : Except String GetOrderResponse)
    (parseTime : String → Option Nat) (now : Nat) : Except String Order :=
  match fetch with
  | .error e => .error e
  | .ok resp => .ok (mapGetOrderResponse resp parseTime now)

/-! ### Adapter state and entry-point dispatcher (`src/lib.rs`)

`BrokerState.orders` models the `HashMap<String, Order>` order cache as an
association list whose insertion conses a shadowing entry — the same
lookup semantics as `HashMap::insert`.  Each entry point returns the
post-state together with its response payload. -/

/-- `BrokerState` in `src/lib.rs`. -/
structure BrokerState where
  client : Option AlpacaClient
  orders : List (String × Order)

/-- `BrokerState::new`. -/
def BrokerState.new : BrokerState :=
  { client := none, orders := [] }

/-- Association-list lookup with the same semantics as `HashMap::get`. -/
def alookup (k : String) : List (String × Order) → Option Order
  | [] => none
  | (k2, v) :: rest => if k2 = k then some v else alookup k rest

/-- `plugin_api::GetAccountsResponse`. -/
structure GetAccountsResponse where
  accounts : List AccountSummary

/-- `plugin_api::GetPositionsResponse`. -/
structure GetPositionsResponse where
  positions : List Position

/-- `plugin_api::SubmitOrderRequest`. -/
structure SubmitOrderRequest where
  order : OrderRequest

/-- `plugin_api::SubmitOrderResponse`. -/
structure SubmitOrderResponse where
  order : Order

/-- `create_error_account` in `src/lib.rs`. -/
def create_error_account (error : String) (now : Nat) : AccountSummary :=
  { id := "error"
    name := "Error: " ++ error
    broker_id := "broker-alpaca"
    is_paper := true
    balance := {
      currency := "USD"
      total_equity := 0
      available_cash := 0
      buying_power := 0
      locked_cash := 0 }
    positions := []
    updated_at := now
    extensions := none }

/-- `create_error_order` in `src/lib.rs` (`now` models the millisecond
timestamp used in the synthetic id). -/
def create_error_order (req : SubmitOrderRequest) (error : String) (now : Nat) : Order :=
  { id := "error_" ++ natToDecimal now
    request := req.order
    status := .Rejected
    created_at := now
    updated_at := now
    average_filled_price := none
    filled_quantity := 0
    extensions := some [("error", Json.str error)]
    persona_id := req.order.persona_id }

/-- The failure payload of the `initialize` entry point. -/
def initFailure (st : BrokerState) : BrokerState × Json :=
  (st, Json.obj [("success", Json.bool false),
                 ("error", Json.str "Missing required configuration: api_key and api_secret"),
                 ("requires_auth", Json.bool true)])

/-- The `initialize` entry point (named `initPlugin` here because the
source name is a Lean keyword): parse `api_key`/`api_secret`/`is_paper`
from the configuration object, validate non-emptiness, and install a
fresh client on success. -/
def initPlugin (config : Json) (st : BrokerState) : BrokerState × Json :=
  let api_key := (config.getKey "api_key").bind Json.asStr
  let api_secret := (config.getKey "api_secret").bind Json.asStr
  let is_paper := ((config.getKey "is_paper").bind Json.asBool).getD true
  match api_key, api_secret with
  | some key, some secret =>
    if key ≠ "" ∧ secret ≠ "" then
      ({ st with client := some (AlpacaClient.new key secret is_paper) },
       Json.obj [("success", Json.bool true),
                 ("message", Json.str ("Alpaca plugin initialized ("
                   ++ (if is_paper then "paper" else "live") ++ ")"))])
    else initFailure st
  | _, _ => initFailure st

/-- The `get_accounts` entry point. -/
def get_accounts (st : BrokerState) (fetchAcct : Except String AlpacaAccount)
    (fetchPos : Except String (List AlpacaPosition)) (now : Nat) :
    BrokerState × GetAccountsResponse :=
  match st.client with
  | none =>
    (st, { accounts := [create_error_account
            "Plugin not initialized. Provide api_key and api_secret." now] })
  | some c =>
    match c.list_accounts fetchAcct fetchPos now with
    | .ok accounts => (st, { accounts := accounts })
    | .error e => (st, { accounts := [create_error_account e now] })

/-- The `get_positions` entry point. -/
def get_positions (st : BrokerState)
    (fetchPos : Except String (List AlpacaPosition)) :
    BrokerState × GetPositionsResponse :=
  match st.client with
  | none => (st, { positions := [] })
  | some c =>
    match c.get_positions fetchPos with
    | .ok positions => (st, { positions := positions })
    | .error _ => (st, { positions := [] })

/-- The `submit_order` entry point: delegates to the client, back-fills
the persona id when the client-produced order carries an empty one, and
records the order in the cache under its assigned id. -/
def submit_order (st : BrokerState) (req : SubmitOrderRequest) (rnd : Nat)
    (post : CreateOrderRequest → Except String OrderResponse)
    (parseTime : String → Option Nat) (now : Nat) :
    BrokerState × SubmitOrderResponse :=
  match st.client with
  | none => (st, { order := create_error_order req "Plugin not initialized" now })
  | some c =>
    match c.submit_order req.order rnd post parseTime now with
    | .ok order =>
      let order_id := order.id
      let order2 := if order.persona_id = "" then
          { order with persona_id := req.order.persona_id }
        else order
      ({ st with orders := (order_id, order2) :: st.orders }, { order := order2 })
    | .error e => (st, { order := create_error_order req e now })

/-- The `cancel_order` entry point. -/
def cancel_order (st : BrokerState) (order_id : String)
    (del : Except String Unit) : BrokerState × Json :=
  match st.client with
  | none =>
    (st, Json.obj [("success", Json.bool false),
                   ("error", Json.str "Plugin not initialized")])
  | some c =>
    match c.cancel_order del with
    | .ok _ => (st, Json.obj [("success", Json.bool true),
                              ("order_id", Json.str order_id)])
    | .error e => (st, Json.obj [("success", Json.bool false),
                                 ("error", Json.str e)])

/-! ### The transport shim's JSON helper (`src/http.rs`)

`HttpResponse::json` formats its error message with
`&self.body[..self.body.len().min(200)]`, a byte-indexed slice of a UTF-8
string.  To capture this the body is modelled at the byte level
(`List Nat`), with Rust's `str::is_char_boundary` and the panic that
byte slicing raises on a non-boundary index made explicit. -/

/-- Rust `is_char_boundary` on an inner byte: not a UTF-8 continuation. -/
def isCharBoundaryByte (b : Nat) : Bool :=
  decide (b < 128) || decide (192 ≤ b)

/-- Rust `String::is_char_boundary` at index `i` (for `i ≤ length`). -/
def isCharBoundaryAt (body : List Nat) (i : Nat) : Bool :=
  if i = 0 then true
  else
    match body.get? i with
    | some b => isCharBoundaryByte b
    | none => decide (i = body.length)

/-- Outcome of `HttpResponse::json`: a decoded value, an error message
carrying the embedded body snippet, or a panic (fatal fault). -/
inductive ParseBodyResult (T : Type) where
  | ok (value : T)
  | err (message : String) (snippet : List Nat)
  | panicked
deriving DecidableEq

/-- `HttpResponse` in `src/http.rs` (headers omitted; the body is kept as
UTF-8 bytes). -/
structure HttpResponse where
  status : Nat
  body : List Nat

/-- `HttpResponse::is_success`. -/
def HttpResponse.is_success (r : HttpResponse) : Bool :=
  decide (200 ≤ r.status) && decide (r.status < 300)

/-- `HttpResponse::json`: strict decode, else an error embedding the body
sliced at byte `min(len, 200)` — which panics when that index is not a
character boundary.  `decode` models `serde_json::from_str` for the
target shape, returning serde's message on failure. -/
def HttpResponse.json {T : Type} (r : HttpResponse)
    (decode : List Nat → Except String T) : ParseBodyResult T :=
  match decode r.body with
  | .ok v => .ok v
  | .error e =>
    let i := min r.body.length 200
    if isCharBoundaryAt r.body i then
      .err ("JSON parse error: " ++ e ++ " - body: ") (r.body.take i)
    else .panicked

/-! ### Auxiliary predicates and concrete sample data for the theorems -/

/-- The validation performed by the `initialize` match: both credentials
present as strings and non-empty. -/
def validCreds (cfg : Json) : Bool :=
  match (cfg.getKey "api_key").bind Json.asStr,
        (cfg.getKey "api_secret").bind Json.asStr with
  | some key, some secret => decide (key ≠ "" ∧ secret ≠ "")
  | _, _ => false

/-- Lowercase hexadecimal digit predicate. -/
def isLowerHexDigit (c : Char) : Bool :=
  (decide ('0' ≤ c) && decide (c ≤ '9')) || (decide ('a' ≤ c) && decide (c ≤ 'f'))

/-- A trivial RFC 3339 oracle that always fails to parse. -/
def noTime : String → Option Nat := fun _ => none

/-- A sample paper-mode client. -/
def client0 : AlpacaClient := AlpacaClient.new "k" "s" true

/-- A well-formed live-mode configuration object. -/
def cfgGood : Json :=
  Json.obj [("api_key", Json.str "k"), ("api_secret", Json.str "s"),
            ("is_paper", Json.bool false)]

/-- A configuration object with an empty `api_key`. -/
def cfgBad : Json :=
  Json.obj [("api_key", Json.str ""), ("api_secret", Json.str "s")]

/-- A configuration object whose `is_paper` field is not a boolean. -/
def cfgPaperDefault : Json :=
  Json.obj [("api_key", Json.str "k"), ("api_secret", Json.str "s"),
            ("is_paper", Json.str "yes")]

/-- A short position of magnitude 10 with a 15% unrealized gain fraction. -/
def posShort : AlpacaPosition :=
  { symbol := "AAPL", qty := "10", avg_entry_price := "1", current_price := "2",
    market_value := "20", unrealized_pl := "3", unrealized_plpc := "0.15",
    side := "short" }

/-- The same position on the long side. -/
def posLong : AlpacaPosition := { posShort with side := "long" }

/-- A long position whose quantity string does not parse. -/
def posAbc : AlpacaPosition := { posShort with qty := "abc", side := "long" }

/-- An account response all of whose amount strings fail to parse. -/
def acctAbc : AlpacaAccount :=
  { id := "id1", account_number := "acct1", status := "ACTIVE", currency := "USD",
    cash := "abc", portfolio_value := "abc", buying_power := "abc", equity := "abc",
    last_equity := "abc", daytrade_count := none, pattern_day_trader := none }

/-- A limit order request at price 101.5 with no stop price. -/
def orderLimit : OrderRequest :=
  { symbol_id := "AAPL", quantity := 10, side := .Buy, order_type := .Limit,
    limit_price := some (101.5 : ℚ), stop_price := none, reference_price := none,
    time_in_force := none, extensions := none, persona_id := "p1" }

/-- The sample submit request wrapping `orderLimit`. -/
def reqSample : SubmitOrderRequest := { order := orderLimit }

/-- A brokerage order response in status `new` whose `filled_qty` does not
parse. -/
def respSample : OrderResponse :=
  { id := "o1", client_order_id := "KL0000000000000001", status := "new",
    symbol := "AAPL", qty := "10", filled_qty := "abc", filled_avg_price := none,
    created_at := "x", updated_at := "y" }

/-- A concrete cached order for exercising the order map. -/
def sampleOrder : Order := create_error_order reqSample "sample" 0

/-- A ready state with an empty order cache. -/
def stReady : BrokerState := { client := some client0, orders := [] }

/-- A ready state whose cache already holds an order under key `"o1"`. -/
def stWithOrder : BrokerState :=
  { client := some client0, orders := [("o1", sampleOrder)] }

/-- A 201-byte HTTP body: 199 ASCII bytes followed by the two-byte UTF-8
encoding of `é`, so byte index 200 falls inside a character. -/
def badBody : List Nat := List.replicate 199 97 ++ [195, 169]

/-! ### Claim theorems -/

/-- C2: the brokerage status strings decode as Submitted for
`new`/`accepted`/`pending_new`, PartiallyFilled for `partially_filled`,
Filled for `filled`, Canceled for `canceled`/`expired`/`rejected` (so
rejection and cancellation are conflated), and `submit_order` and
`get_order` apply the identical mapping. -/
theorem order_status_decode :
    (submitOrderStatus "new" = .Submitted ∧
     submitOrderStatus "accepted" = .Submitted ∧
     submitOrderStatus "pending_new" = .Submitted ∧
     submitOrderStatus "partially_filled" = .PartiallyFilled ∧
     submitOrderStatus "filled" = .Filled ∧
     submitOrderStatus "canceled" = .Canceled ∧
     submitOrderStatus "expired" = .Canceled ∧
     submitOrderStatus "rejected" = .Canceled) ∧
    (∀ s, getOrderStatus s = submitOrderStatus s) ∧
    (∀ order resp parseTime now,
      (mapSubmitResponse order resp parseTime now).status = submitOrderStatus resp.status) ∧
    (∀ resp parseTime now,
      (mapGetOrderResponse resp parseTime now).status = getOrderStatus resp.status) := by
  refine ⟨⟨by decide, by decide, by decide, by decide, by decide, by decide, by decide,
    by decide⟩, fun s => rfl, fun _ _ _ _ => rfl, fun _ _ _ => rfl⟩

/-- C3: each mapped position's quantity is the parsed magnitude times -1
exactly when the upstream `side` is `"short"` (so side `"short"`, qty
`"10"` yields -10, and any other side yields +qty), and the unrealized
P/L percent is the parsed fraction times 100 (0.15 maps to 15). -/
theorem position_quantity_sign (p : AlpacaPosition) :
    ((p.side = "short" → (mapPosition p).quantity = -((parseF p.qty).getD 0)) ∧
     (p.side ≠ "short" → (mapPosition p).quantity = (parseF p.qty).getD 0) ∧
     (mapPosition p).unrealized_pnl_percent = (parseF p.unrealized_plpc).getD 0 * 100) ∧
    (∀ c ps, AlpacaClient.get_positions c (.ok ps) = .ok (ps.map mapPosition)) ∧
    (mapPosition posShort).quantity = -10 ∧
    (mapPosition posLong).quantity = 10 ∧
    (mapPosition posShort).unrealized_pnl_percent = 15 := by
  have h10 : parseF "10" = some 10 := by decide
  have h15 : parseF "0.15" = some (mkRat 3 20) := by decide
  refine ⟨⟨?_, ?_, rfl⟩, fun c ps => rfl, ?_, ?_, ?_⟩
  · intro h; simp [mapPosition, h]
  · intro h; simp [mapPosition, h]
  · simp [mapPosition, posShort, h10]
  · simp [mapPosition, posLong, posShort, h10]
  · simp [mapPosition, posShort, h15]
    rw [Rat.mkRat_eq_div]; norm_num

/-- Witness for C3 at the concrete short and long positions. -/
theorem position_quantity_sign_witness :
    (mapPosition posShort).quantity = -((parseF posShort.qty).getD 0) ∧
    (mapPosition posLong).quantity = (parseF posLong.qty).getD 0 :=
  ⟨(position_quantity_sign posShort).1.1 rfl,
   (position_quantity_sign posLong).1.2.1 (by decide)⟩

/-- C1: with both credentials present and non-empty, the `initialize`
entry point installs a client whose base endpoint follows the parsed
`is_paper` flag (paper endpoint when true, live endpoint otherwise) and
answers success; with the key or secret missing or empty in any
combination the state is left unchanged (in particular an Uninitialized
slot remains Uninitialized) and the response is a failure carrying
`requires_auth: true`. -/
theorem initialize_client_slot (cfg : Json) (st : BrokerState) :
    (∀ key secret,
      (cfg.getKey "api_key").bind Json.asStr = some key →
      (cfg.getKey "api_secret").bind Json.asStr = some secret →
      key ≠ "" → secret ≠ "" →
      (∃ c, (initPlugin cfg st).1.client = some c ∧
        c.api_key = key ∧ c.api_secret = secret ∧
        c.is_paper = ((cfg.getKey "is_paper").bind Json.asBool).getD true ∧
        c.base_url = (if ((cfg.getKey "is_paper").bind Json.asBool).getD true
                      then PAPER_API_URL else LIVE_API_URL)) ∧
      ((initPlugin cfg st).2.getKey "success") = some (Json.bool true)) ∧
    (validCreds cfg = false →
      (initPlugin cfg st).1 = st ∧
      ((initPlugin cfg st).2.getKey "success") = some (Json.bool false) ∧
      ((initPlugin cfg st).2.getKey "requires_auth") = some (Json.bool true)) := by
  constructor
  · intro key secret hk hs hk2 hs2
    simp only [initPlugin, hk, hs, Option.bind_some]
    rw [if_pos ⟨hk2, hs2⟩]
    exact ⟨⟨AlpacaClient.new key secret _, rfl, rfl, rfl, rfl, rfl⟩, rfl⟩
  · intro hv
    unfold validCreds at hv
    rcases hk : (cfg.getKey "api_key").bind Json.asStr with _ | key <;>
      rcases hs : (cfg.getKey "api_secret").bind Json.asStr with _ | secret <;>
      simp only [hk, hs] at hv ⊢ <;>
      simp only [initPlugin, hk, hs, initFailure]
    · exact ⟨trivial, rfl, rfl⟩
    · exact ⟨trivial, rfl, rfl⟩
    · exact ⟨trivial, rfl, rfl⟩
    · rw [if_neg (of_decide_eq_false hv)]
      exact ⟨rfl, rfl, rfl⟩

/-- Witness for C1: a live-mode configuration installs the live client
and succeeds; an empty-key configuration leaves the fresh state unchanged
and reports `requires_auth`. -/
theorem initialize_client_slot_witness :
    ((∃ c, (initPlugin cfgGood BrokerState.new).1.client = some c ∧
      c.api_key = "k" ∧ c.api_secret = "s" ∧
      c.is_paper = ((cfgGood.getKey "is_paper").bind Json.asBool).getD true ∧
      c.base_url = (if ((cfgGood.getKey "is_paper").bind Json.asBool).getD true
                    then PAPER_API_URL else LIVE_API_URL)) ∧
     ((initPlugin cfgGood BrokerState.new).2.getKey "success") = some (Json.bool true)) ∧
    (initPlugin cfgBad BrokerState.new).1 = BrokerState.new ∧
    ((initPlugin cfgBad BrokerState.new).2.getKey "requires_auth") = some (Json.bool true) := by
  have hg := (initialize_client_slot cfgGood BrokerState.new).1 "k" "s" rfl rfl
    (by decide) (by decide)
  have hb := (initialize_client_slot cfgBad BrokerState.new).2 (by decide)
  exact ⟨hg, hb.1, hb.2.2⟩

/-- C10: when the `is_paper` field is absent or not a boolean, a
successful initialization defaults to paper mode and selects the paper
endpoint. -/
theorem default_paper_mode (cfg : Json) (st : BrokerState) (key secret : String)
    (hk : (cfg.getKey "api_key").bind Json.asStr = some key)
    (hs : (cfg.getKey "api_secret").bind Json.asStr = some secret)
    (hk2 : key ≠ "") (hs2 : secret ≠ "")
    (hp : (cfg.getKey "is_paper").bind Json.asBool = none) :
    ∃ c, (initPlugin cfg st).1.client = some c ∧ c.is_paper = true ∧
      c.base_url = PAPER_API_URL := by
  simp only [initPlugin, hk, hs, hp, Option.getD_none]
  rw [if_pos ⟨hk2, hs2⟩]
  exact ⟨AlpacaClient.new key secret true, rfl, rfl, rfl⟩

/-- Witness for C10 at a configuration whose `is_paper` is a string. -/
theorem default_paper_mode_witness :
    ∃ c, (initPlugin cfgPaperDefault BrokerState.new).1.client = some c ∧
      c.is_paper = true ∧ c.base_url = PAPER_API_URL :=
  default_paper_mode cfgPaperDefault BrokerState.new "k" "s" rfl rfl
    (by decide) (by decide) rfl

/-- C4: for any numeric-string field that fails to parse, the mapped
field is 0 while the enclosing operation (`get_account`, `get_positions`,
`submit_order`, `get_order`) still returns success once its HTTP exchange
has delivered a decoded body. -/
theorem unparsable_field_defaults_zero (s : String) (hs : parseF s = none) :
    (∀ c a fp now, ∃ summary,
       AlpacaClient.get_account c (.ok a) fp now = .ok summary ∧
       (a.equity = s → summary.balance.total_equity = 0) ∧
       (a.cash = s → summary.balance.available_cash = 0) ∧
       (a.buying_power = s → summary.balance.buying_power = 0)) ∧
    (∀ c ps, AlpacaClient.get_positions c (.ok ps) = .ok (ps.map mapPosition)) ∧
    (∀ p, p.qty = s → (mapPosition p).quantity = 0) ∧
    (∀ order resp parseTime now, resp.filled_qty = s →
       (mapSubmitResponse order resp parseTime now).filled_quantity = 0) ∧
    (∀ c order rnd resp parseTime now,
       AlpacaClient.submit_order c order rnd (fun _ => .ok resp) parseTime now
         = .ok (mapSubmitResponse order resp parseTime now)) ∧
    (∀ resp parseTime now, resp.filled_qty = s →
       (mapGetOrderResponse resp parseTime now).filled_quantity = 0) ∧
    (∀ c resp parseTime now,
       AlpacaClient.get_order c (.ok resp) parseTime now
         = .ok (mapGetOrderResponse resp parseTime now)) := by
  refine ⟨?_, fun c ps => rfl, ?_, ?_, fun _ _ _ _ _ _ => rfl, ?_, fun _ _ _ _ => rfl⟩
  · intro c a fp now
    refine ⟨_, rfl, ?_, ?_, ?_⟩ <;>
      { intro h; simp [AlpacaClient.get_account, parse_amount, h, hs] }
  · intro p h
    simp [mapPosition, h, hs]
  · intro order resp parseTime now h
    simp [mapSubmitResponse, h, hs]
  · intro resp parseTime now h
    simp [mapGetOrderResponse, h, hs]

/-- Witness for C4 at `"abc"`-valued fields. -/
theorem unparsable_field_defaults_zero_witness :
    (∃ summary, AlpacaClient.get_account client0 (.ok acctAbc) (.ok []) 0 = .ok summary ∧
       summary.balance.total_equity = 0 ∧ summary.balance.available_cash = 0 ∧
       summary.balance.buying_power = 0) ∧
    (mapPosition posAbc).quantity = 0 ∧
    (mapSubmitResponse orderLimit respSample noTime 0).filled_quantity = 0 := by
  have h := unparsable_field_defaults_zero "abc" (by decide)
  rcases h.1 client0 acctAbc (.ok []) 0 with ⟨summary, he, h1, h2, h3⟩
  exact ⟨⟨summary, he, h1 rfl, h2 rfl, h3 rfl⟩, h.2.2.1 posAbc rfl,
    h.2.2.2.1 orderLimit respSample noTime 0 rfl⟩

/-- Every lowercase hex digit extracted modulo 16 satisfies the digit
predicate. -/
theorem hexDigitChar_mod_lower (m : Nat) : isLowerHexDigit (hexDigitChar (m % 16)) = true := by
  have h : ∀ k, k < 16 → isLowerHexDigit (hexDigitChar k) = true := by decide
  exact h _ (Nat.mod_lt _ (by norm_num))

/-- C5: a Limit order at price 101.5 with no stop price POSTs a body
holding `"type":"limit"` and `"limit_price":"101.5"` (prices as strings),
no `stop_price` key at all, the fixed `"time_in_force":"day"`, and a
client order id `KL` followed by 16 lowercase hex digits. -/
theorem limit_order_body (order : OrderRequest) (rnd : Nat)
    (h1 : order.order_type = .Limit) (h2 : order.limit_price = some (101.5 : ℚ))
    (h3 : order.stop_price = none) :
    ("type", "limit") ∈ encodeCreateOrder (submitOrderBody order rnd) ∧
    ("limit_price", "101.5") ∈ encodeCreateOrder (submitOrderBody order rnd) ∧
    "stop_price" ∉ (encodeCreateOrder (submitOrderBody order rnd)).map Prod.fst ∧
    ("time_in_force", "day") ∈ encodeCreateOrder (submitOrderBody order rnd) ∧
    ("client_order_id", "KL" ++ toHex16 rnd) ∈ encodeCreateOrder (submitOrderBody order rnd) ∧
    (toHex16 rnd).length = 16 ∧
    (∀ ch ∈ (toHex16 rnd).toList, isLowerHexDigit ch = true) := by
  have hr : ratToString (101.5 : ℚ) = "101.5" := by
    have he : (101.5 : ℚ) = mkRat 203 2 := by norm_num [mkRat, Rat.normalize]
    rw [he]; decide
  have hb : encodeCreateOrder (submitOrderBody order rnd) =
      [("symbol", order.symbol_id), ("qty", ratToString order.quantity),
       ("side", sideToken order.side), ("type", "limit"), ("time_in_force", "day"),
       ("limit_price", "101.5"), ("client_order_id", "KL" ++ toHex16 rnd)] := by
    simp [submitOrderBody, encodeCreateOrder, h1, h2, h3, orderTypeToken, hr]
  refine ⟨?_, ?_, ?_, ?_, ?_, ?_, ?_⟩
  · rw [hb]; simp
  · rw [hb]; simp
  · rw [hb]; simp only [List.map_cons, List.map_nil]; decide
  · rw [hb]; simp
  · rw [hb]; simp
  · simp [toHex16, String.length]
  · intro ch hch
    simp only [toHex16, String.toList, String.mk, List.mem_map] at hch
    rcases hch with ⟨i, _, rfl⟩
    exact hexDigitChar_mod_lower _

/-- Witness for C5 at `orderLimit` and the random draw 3735928559. -/
theorem limit_order_body_witness :
    ("type", "limit") ∈ encodeCreateOrder (submitOrderBody orderLimit 3735928559) ∧
    ("limit_price", "101.5") ∈ encodeCreateOrder (submitOrderBody orderLimit 3735928559) ∧
    "stop_price" ∉ (encodeCreateOrder (submitOrderBody orderLimit 3735928559)).map Prod.fst ∧
    ("time_in_force", "day") ∈ encodeCreateOrder (submitOrderBody orderLimit 3735928559) ∧
    ("client_order_id", "KL" ++ toHex16 3735928559) ∈
      encodeCreateOrder (submitOrderBody orderLimit 3735928559) ∧
    (toHex16 3735928559).length = 16 ∧
    (∀ ch ∈ (toHex16 3735928559).toList, isLowerHexDigit ch = true) :=
  limit_order_body orderLimit 3735928559 rfl rfl rfl

/-- C6: with the client slot Uninitialized, `get_accounts` answers exactly
one error-flagged account whose name is `"Error: "` followed by the
message, and `get_positions` answers an empty position list; both entry
points return these well-formed payloads rather than any fatal fault. -/
theorem uninitialized_soft_responses (st : BrokerState) (h : st.client = none)
    (fa : Except String AlpacaAccount) (fp fp2 : Except String (List AlpacaPosition))
    (now : Nat) :
    get_accounts st fa fp now =
      (st, { accounts := [create_error_account
        "Plugin not initialized. Provide api_key and api_secret." now] }) ∧
    (get_accounts st fa fp now).2.accounts.length = 1 ∧
    (create_error_account "Plugin not initialized. Provide api_key and api_secret." now).name
      = "Error: " ++ "Plugin not initialized. Provide api_key and api_secret." ∧
    get_positions st fp2 = (st, { positions := [] }) := by
  refine ⟨?_, ?_, rfl, ?_⟩ <;> simp [get_accounts, get_positions, h]

/-- Witness for C6 at a fresh state and failing transports. -/
theorem uninitialized_soft_responses_witness :
    get_accounts BrokerState.new (.error "e1") (.ok []) 7 =
      (BrokerState.new, { accounts := [create_error_account
        "Plugin not initialized. Provide api_key and api_secret." 7] }) ∧
    (get_accounts BrokerState.new (.error "e1") (.ok []) 7).2.accounts.length = 1 ∧
    (create_error_account "Plugin not initialized. Provide api_key and api_secret." 7).name
      = "Error: " ++ "Plugin not initialized. Provide api_key and api_secret." ∧
    get_positions BrokerState.new (.error "e2") = (BrokerState.new, { positions := [] }) :=
  uninitialized_soft_responses BrokerState.new rfl (.error "e1") (.ok []) (.error "e2") 7

/-- C7: a successful `submit_order` dispatch always reports an order
whose persona id equals the request's persona id — the brokerage wire
response carries no persona field firsthand, and the dispatcher
back-fills it whenever the client-produced order leaves it empty. -/
theorem persona_id_backfill (st : BrokerState) (c : AlpacaClient) (h : st.client = some c)
    (req : SubmitOrderRequest) (rnd : Nat) (resp : OrderResponse)
    (parseTime : String → Option Nat) (now : Nat) :
    (submit_order st req rnd (fun _ => .ok resp) parseTime now).2.order.persona_id
      = req.order.persona_id := by
  simp only [submit_order, h, AlpacaClient.submit_order]
  split <;> rfl

/-- Witness for C7 at a ready state and the sample response. -/
theorem persona_id_backfill_witness :
    (submit_order stReady reqSample 1 (fun _ => .ok respSample) noTime 0).2.order.persona_id
      = reqSample.order.persona_id :=
  persona_id_backfill stReady client0 rfl reqSample 1 respSample noTime 0

/-- C8: the order cache only grows — `initialize`, `get_accounts`,
`get_positions` and `cancel_order` leave it unchanged, every key present
before a `submit_order` is still present after it, a successful submit
prepends exactly the entry keyed by the newly assigned order id, and a
failed submit leaves the state unchanged. -/
theorem orders_cache_only_grows (st : BrokerState) :
    (∀ cfg, (initPlugin cfg st).1.orders = st.orders) ∧
    (∀ fa fp now, (get_accounts st fa fp now).1 = st) ∧
    (∀ fp, (get_positions st fp).1 = st) ∧
    (∀ oid del, (cancel_order st oid del).1 = st) ∧
    (∀ req rnd post parseTime now k, alookup k st.orders ≠ none →
       alookup k (submit_order st req rnd post parseTime now).1.orders ≠ none) ∧
    (∀ c req rnd resp parseTime now, st.client = some c →
       (submit_order st req rnd (fun _ => .ok resp) parseTime now).1.orders =
         (resp.id, (submit_order st req rnd (fun _ => .ok resp) parseTime now).2.order)
           :: st.orders) ∧
    (∀ req rnd e parseTime now,
       (submit_order st req rnd (fun _ => .error e) parseTime now).1 = st) := by
  refine ⟨?_, ?_, ?_, ?_, ?_, ?_, ?_⟩
  · intro cfg
    rcases hk : (cfg.getKey "api_key").bind Json.asStr with _ | key <;>
      rcases hs2 : (cfg.getKey "api_secret").bind Json.asStr with _ | secret <;>
      simp only [initPlugin, initFailure, hk, hs2] <;>
      first
      | rfl
      | trivial
      | (split <;> first | rfl | trivial)
  · intro fa fp now
    unfold get_accounts
    split
    · rfl
    · split <;> rfl
  · intro fp
    unfold get_positions
    split
    · rfl
    · split <;> rfl
  · intro oid del
    unfold cancel_order
    split
    · rfl
    · split <;> rfl
  · intro req rnd post parseTime now k hk
    unfold submit_order
    split
    · exact hk
    · split
      · simp only [alookup]
        split
        · simp
        · exact hk
      · exact hk
  · intro c req rnd resp parseTime now h
    simp only [submit_order, h, AlpacaClient.submit_order]
    rfl
  · intro req rnd e parseTime now
    unfold submit_order
    split <;> rfl

/-- Witness for C8 at a state already caching an order under `"o1"`. -/
theorem orders_cache_only_grows_witness :
    alookup "o1" (submit_order stWithOrder reqSample 1 (fun _ => .ok respSample)
      noTime 0).1.orders ≠ none ∧
    (submit_order stWithOrder reqSample 1 (fun _ => .ok respSample) noTime 0).1.orders =
      (respSample.id, (submit_order stWithOrder reqSample 1 (fun _ => .ok respSample)
        noTime 0).2.order) :: stWithOrder.orders := by
  have h := orders_cache_only_grows stWithOrder
  exact ⟨h.2.2.2.2.1 reqSample 1 _ noTime 0 "o1" (by simp [stWithOrder, alookup]),
    h.2.2.2.2.2.1 client0 reqSample 1 respSample noTime 0 rfl⟩

set_option maxRecDepth 8000 in
/-- C9: the claim says the JSON helper never raises a fatal fault for any
body content, but slicing `&body[..len.min(200)]` is byte-indexed: on a
body whose 200th byte falls inside a multi-byte UTF-8 character the error
path panics.  First conjunct: the panic at such a body.  Second conjunct:
the same-length all-ASCII body instead yields the descriptive error
embedding the 200-byte prefix. -/
theorem json_helper_panics :
    HttpResponse.json { status := 200, body := badBody }
      (fun _ => (Except.error "invalid syntax" : Except String Unit))
      = ParseBodyResult.panicked ∧
    HttpResponse.json { status := 200, body := List.replicate 201 97 }
      (fun _ => (Except.error "invalid syntax" : Except String Unit))
      = ParseBodyResult.err "JSON parse error: invalid syntax - body: "
          (List.replicate 200 97) := by
  constructor
  · decide
  · decide
